import Mathlib

/-!
Shallow embedding of `plugins/wan2gp-auto-composer/plugin.py`
(class `AutoVideoComposerPlugin`).

Conventions of the embedding:
* Python strings are `List Char`; string literals are written `("...").data`.
* Python floats are modelled as exact rationals (`ℚ`); Python ints as `ℤ`/`ℕ`.
* Python `round` (round to nearest, ties to even) is `pyRound`;
  `round(x, 2)` is `pyRound2`.  `int(...)` applied to the result of `round`
  is the identity in Python 3 and is therefore dropped.
* `re.split(r"[\n\r]+|(?<=[.!?])\s+", prompt)` is modelled by `splitFields`,
  which splits at every single newline character and at every whitespace
  character whose predecessor in the original string is `.`, `!` or `?`.
  A maximal separator run in the regex corresponds to a run of single-character
  splits here, whose extra fields are empty or whitespace-only and are removed
  by the `strip`/filter step that the source applies to every field; the
  filtered unit list therefore coincides with that of the regex.
* Host callbacks (`get_current_model_settings`, `get_base_model_type`,
  `get_computed_fps`, `get_model_min_frames_and_step`, `get_gen_info`,
  `add_video_task`) are modelled by a `HostEnv` record of their results; the
  jobs passed to `add_video_task` are collected in the `jobs` list of the outcome,
  and the generation-info dict is the `GenInfo` record (`prompts_max` and
  `queue` keys explicit, all remaining keys abstracted as `rest`).
-/

/-- Whitespace characters of the Python `\s` class and of `str.strip()` (ASCII range). -/
def isWsChar (c : Char) : Bool :=
  c = ' ' || c = '\t' || c = '\n' || c = '\r' || c = '\x0b' || c = '\x0c'

/-- Line-break characters of the `[\n\r]+` alternative. -/
def isNewlineChar (c : Char) : Bool :=
  c = '\n' || c = '\r'

/-- Sentence-terminal characters of the `(?<=[.!?])` lookbehind. -/
def isTerminalChar (c : Char) : Bool :=
  c = '.' || c = '!' || c = '?'

/-- Python `str.strip()`: remove leading and trailing whitespace. -/
def pyStrip (s : List Char) : List Char :=
  ((s.dropWhile isWsChar).reverse.dropWhile isWsChar).reverse

/-- Field decomposition of `re.split(r"[\n\r]+|(?<=[.!?])\s+", prompt)`:
`prev` is the character preceding the scan position in the original string,
`cur` the (reversed) field accumulated so far.  Splits happen at newline
characters and at whitespace characters preceded by `.`, `!` or `?`. -/
def splitFields : Option Char → List Char → List Char → List (List Char)
  | _, cur, [] => [cur.reverse]
  | prev, cur, c :: rest =>
    if isNewlineChar c || (isWsChar c && (prev.map isTerminalChar).getD false) then
      cur.reverse :: splitFields (some c) [] rest
    else
      splitFields (some c) (c :: cur) rest

/-- The list comprehension in `_split_prompt`:
`[part.strip() for part in re.split(...) if part.strip()]`. -/
def sentenceUnits (prompt : List Char) : List (List Char) :=
  ((splitFields none [] prompt).map pyStrip).filter (fun u => !u.isEmpty)

/-- The chunk-collecting loop of `_split_prompt`, before joining: one window
`sentences[cursor : cursor + chunkSize]` per remaining iteration, replaced by
`[sentences[-1]]` when the window is empty. -/
def chunkWindows (sentences : List (List Char)) (chunkSize : ℕ) :
    ℕ → ℕ → List (List (List Char))
  | 0, _ => []
  | n + 1, cursor =>
    (if ((sentences.drop cursor).take chunkSize).isEmpty then
      [sentences.getLastD []]
    else
      (sentences.drop cursor).take chunkSize)
    :: chunkWindows sentences chunkSize n (cursor + chunkSize)

/-- Python `" ".join(chunk)`. -/
def joinSpace (chunk : List (List Char)) : List Char :=
  List.intercalate [' '] chunk

/-- Embeds `AutoVideoComposerPlugin._split_prompt(prompt, segments)`.
`math.ceil(len(sentences) / segments)` on exact values is
`(len + segments - 1) / segments` in `ℕ`. -/
def split_prompt (prompt : List Char) (segments : ℕ) : List (List Char) :=
  let sentences := sentenceUnits prompt
  if sentences.isEmpty then
    List.replicate segments (pyStrip prompt)
  else
    let chunk_size := max 1 ((sentences.length + segments - 1) / segments)
    (chunkWindows sentences chunk_size segments 0).map joinSpace

/-- Python 3 `round(q)`: nearest integer, ties to even. -/
def pyRound (q : ℚ) : ℤ :=
  if q - ⌊q⌋ < 1 / 2 then ⌊q⌋
  else if 1 / 2 < q - ⌊q⌋ then ⌊q⌋ + 1
  else if 2 ∣ ⌊q⌋ then ⌊q⌋ else ⌊q⌋ + 1

/-- Python 3 `round(q, 2)` on exact values: round `q * 100` to the nearest
integer (ties to even) and divide back by `100`. -/
def pyRound2 (q : ℚ) : ℚ :=
  (pyRound (q * 100) : ℚ) / 100

/-- The f-string tail appended to every chunk in `_build_segments_plan`:
`" (Segment {idx + 1}/{segments_count}. Houd stijl, personages en camera gelijkmatig)."`. -/
def segTag (idx count : ℕ) : List Char :=
  (" (Segment ").data ++ (Nat.repr idx).data ++ ("/").data ++ (Nat.repr count).data
    ++ (". Houd stijl, personages en camera gelijkmatig).").data

/-- One entry of the list returned by `_build_segments_plan`. -/
structure SegmentPlan where
  index : ℕ
  prompt : List Char
  seconds : ℚ
  frames : ℤ
deriving DecidableEq

/-- Embeds `segments_count = max(1, math.ceil(total_seconds / segment_seconds))`
with `total_seconds = total_minutes * 60`. -/
def segmentsCount (total_minutes segment_seconds : ℚ) : ℕ :=
  (max 1 ⌈total_minutes * 60 / segment_seconds⌉).toNat

/-- Embeds `AutoVideoComposerPlugin._build_segments_plan`.  The loop over
`range(segments_count)` is a `List.map` over `List.range`; `int(round(x))`
is `pyRound x` (in Python 3 `round` already yields an `int`). -/
def build_segments_plan (prompt : List Char) (total_minutes segment_seconds fps : ℚ)
    (min_frames frame_step : ℤ) : List SegmentPlan :=
  let total_seconds : ℚ := total_minutes * 60
  let segments_count : ℕ := segmentsCount total_minutes segment_seconds
  let chunks := split_prompt prompt segments_count
  (List.range segments_count).map fun idx =>
    let duration : ℚ :=
      if idx < segments_count - 1 then segment_seconds
      else max segment_seconds
        (total_seconds - segment_seconds * ((segments_count - 1 : ℕ) : ℚ))
    let frames : ℤ :=
      max min_frames (pyRound (duration * fps / (frame_step : ℚ)) * frame_step)
    { index := idx + 1
      prompt := chunks.getD idx [] ++ segTag (idx + 1) segments_count
      seconds := pyRound2 duration
      frames := frames }

/-- Follows the specification words only (for comparison with `segTag`): the English
continuity tail `" (Segment <i+1>/<segmentCount>. Keep style, characters and
camera consistent)."` that claim C7 asserts is appended verbatim. -/
def segTagClaim7 (idx count : ℕ) : List Char :=
  (" (Segment ").data ++ (Nat.repr idx).data ++ ("/").data ++ (Nat.repr count).data
    ++ (". Keep style, characters and camera consistent).").data

/-- Follows the specification words only (for comparison with the frame
formula): round the raw frame count `duration * fps` to the nearest integer,
then integer-divide by `frame_step` truncating and multiply back, then floor
against `min_frames`. -/
def framesClaimC2 (duration fps : ℚ) (min_frames frame_step : ℤ) : ℤ :=
  max min_frames ((pyRound (duration * fps)).tdiv frame_step * frame_step)

/-- The generation-info dict returned by `get_gen_info`: the two keys the
plugin touches (`prompts_max`, `queue`) made explicit (`none` = key absent),
all remaining keys abstracted as `rest`. -/
structure GenInfo (κ ρ : Type) where
  prompts_max : Option ℤ
  queue : Option (List κ)
  rest : ρ
deriving DecidableEq

/-- Results of the host callbacks consulted by `_create_segments`:
`settings` is the (already deep-copied and `lset_name`/`mode`-adjusted)
model-settings blob, abstracted as `σ`; `base_model_type_ok` is whether
`get_base_model_type` returned a non-`None` value; `fps_is_number` is the
`isinstance(fps, (int, float))` test on the result of `get_computed_fps`. -/
structure HostEnv (σ κ ρ : Type) where
  settings : Option σ
  base_model_type_ok : Bool
  fps_is_number : Bool
  fps : ℚ
  min_frames : ℤ
  frame_step : ℤ
  gen : GenInfo κ ρ

/-- One keyword-argument record passed to `add_video_task`: the deep-copied
settings base plus the keys `_create_segments` overrides explicitly
(`state`/`model_type`/`model_filename` stay inside the abstraction `base`). -/
structure SubmittedJob (σ : Type) where
  base : σ
  prompt : List Char
  video_length : ℤ
  segment : ℕ
  total_segments : ℕ
  segment_seconds : ℚ
  fps : ℚ
deriving DecidableEq

/-- Observable outcome of one `_create_segments` call: the `gr.Warning`
message if any, the jobs submitted via `add_video_task` in call order, and
the generation info afterwards.  The returned markdown summary
(`_render_summary`, pure presentation) is not modelled. -/
structure CreateOutcome (σ κ ρ : Type) where
  warning : Option (List Char)
  jobs : List (SubmittedJob σ)
  gen : GenInfo κ ρ
deriving DecidableEq

/-- Embeds `AutoVideoComposerPlugin._validate_inputs`. -/
def validate_inputs (prompt : List Char) (total_minutes segment_seconds : ℚ) :
    Option (List Char) :=
  if prompt.isEmpty || (pyStrip prompt).isEmpty then
    some ("Prompt mag niet leeg zijn.").data
  else if total_minutes ≤ 0 then
    some ("Totale duur moet groter dan nul zijn.").data
  else if segment_seconds ≤ 0 then
    some ("Segmentlengte moet groter dan nul zijn.").data
  else
    none

/-- Embeds `_build_error_response`: emit the warning and leave every effectful state
untouched (no job submitted, generation info unchanged). -/
def abortWith {σ κ ρ : Type} (env : HostEnv σ κ ρ) (msg : List Char) :
    CreateOutcome σ κ ρ :=
  { warning := some msg, jobs := [], gen := env.gen }

/-- Embeds `AutoVideoComposerPlugin._create_segments`, effects made explicit.
`gen.setdefault("queue", [])` becomes `queue := some (queue.getD [])`;
`gen["prompts_max"] = gen.get("prompts_max", 0) + len(segments_plan)` becomes
the `prompts_max` update. -/
def create_segments {σ κ ρ : Type} (env : HostEnv σ κ ρ) (prompt : List Char)
    (total_minutes segment_seconds : ℚ) : CreateOutcome σ κ ρ :=
  match validate_inputs prompt total_minutes segment_seconds with
  | some msg => abortWith env msg
  | none =>
    match env.settings with
    | none => abortWith env ("Kon de huidige modelinstellingen niet ophalen.").data
    | some settings =>
      if env.base_model_type_ok = false then
        abortWith env
          ("Kon de basismodelgegevens niet bepalen. Kies een geldig model en probeer opnieuw.").data
      else if env.fps_is_number = false ∨ env.fps ≤ 0 then
        abortWith env
          ("Kon een geldige FPS-waarde niet bepalen. Controleer de modelinstellingen.").data
      else if env.min_frames ≤ 0 ∨ env.frame_step ≤ 0 then
        abortWith env
          ("Modelconfiguratie heeft ongeldige frame-waarden. Controleer het geselecteerde model.").data
      else
        let plan := build_segments_plan prompt total_minutes segment_seconds
          env.fps env.min_frames env.frame_step
        let gen1 : GenInfo κ ρ := { env.gen with queue := some (env.gen.queue.getD []) }
        { warning := none
          jobs := plan.map fun seg =>
            { base := settings
              prompt := seg.prompt
              video_length := seg.frames
              segment := seg.index
              total_segments := plan.length
              segment_seconds := seg.seconds
              fps := env.fps }
          gen := { gen1 with prompts_max := some (gen1.prompts_max.getD 0 + (plan.length : ℤ)) } }

/-- Concrete host environment (all callbacks succeed, queue key present) used
by witnesses. -/
def envU : HostEnv Unit Unit Unit :=
  { settings := some ()
    base_model_type_ok := true
    fps_is_number := true
    fps := 8
    min_frames := 8
    frame_step := 2
    gen := { prompts_max := some 0, queue := some [], rest := () } }

/-- Concrete host environment whose generation info lacks the `queue` key. -/
def envNoQueue : HostEnv Unit Unit Unit :=
  { settings := some ()
    base_model_type_ok := true
    fps_is_number := true
    fps := 1
    min_frames := 1
    frame_step := 1
    gen := { prompts_max := some 0, queue := none, rest := () } }

theorem chunkWindows_length (s : List (List Char)) (cs : ℕ) :
    ∀ (g cursor : ℕ), (chunkWindows s cs g cursor).length = g := by
  intro g
  induction g with
  | zero => intro cursor; rfl
  | succ n ih => intro cursor; simp [chunkWindows, ih]

theorem chunkWindows_flatten_eq (s : List (List Char)) (cs : ℕ) (hcs : 0 < cs) :
    ∀ (g cursor : ℕ), s.length ≤ cursor + cs * g →
      ∃ m, (chunkWindows s cs g cursor).flatten =
        s.drop cursor ++ List.replicate m (s.getLastD []) := by
  intro g
  induction g with
  | zero =>
    intro cursor h
    refine ⟨0, ?_⟩
    simp only [Nat.mul_zero, Nat.add_zero] at h
    simp [chunkWindows, List.drop_eq_nil_iff.mpr h]
  | succ n ih =>
    intro cursor h
    have hstep : s.length ≤ (cursor + cs) + cs * n := by
      have e : cs * (n + 1) = cs * n + cs := by ring
      rw [e] at h
      linarith
    obtain ⟨m, hm⟩ := ih (cursor + cs) hstep
    by_cases hc : ((s.drop cursor).take cs).isEmpty
    · have htake : (s.drop cursor).take cs = [] := List.isEmpty_iff.mp hc
      have hdrop : s.drop cursor = [] := by
        rcases List.take_eq_nil_iff.mp htake with h1 | h1
        · omega
        · exact h1
      have hlen : s.length ≤ cursor := List.drop_eq_nil_iff.mp hdrop
      have hdrop2 : s.drop (cursor + cs) = [] :=
        List.drop_eq_nil_iff.mpr (by omega)
      refine ⟨m + 1, ?_⟩
      rw [chunkWindows, if_pos hc, List.flatten_cons, hm, hdrop, hdrop2]
      simp [List.replicate_succ]
    · refine ⟨m, ?_⟩
      rw [chunkWindows, if_neg hc, List.flatten_cons, hm]
      rw [show s.drop (cursor + cs) = (s.drop cursor).drop cs from
        (List.drop_drop cs cursor s).symm]
      rw [← List.append_assoc, List.take_append_drop]

theorem length_le_chunkSize_mul (n g : ℕ) (hg : 0 < g) :
    n ≤ (max 1 ((n + g - 1) / g)) * g := by
  have h := le_smul_ceilDiv (α := ℕ) (β := ℕ) hg (b := n)
  rw [Nat.ceilDiv_eq_add_pred_div, smul_eq_mul] at h
  calc n ≤ g * ((n + g - 1) / g) := h
    _ = ((n + g - 1) / g) * g := by ring
    _ ≤ (max 1 ((n + g - 1) / g)) * g :=
        Nat.mul_le_mul_right g (le_max_right 1 _)

theorem segmentsCount_pos (tm ss : ℚ) : 1 ≤ segmentsCount tm ss := by
  have h : (1 : ℤ) ≤ max 1 ⌈tm * 60 / ss⌉ := le_max_left 1 _
  have := Int.toNat_le_toNat h
  simpa [segmentsCount] using this

theorem total_le_count_mul (tm ss : ℚ) (htm : 0 < tm) (hss : 0 < ss) :
    tm * 60 ≤ ss * ((segmentsCount tm ss : ℕ) : ℚ) := by
  have hq : 0 < tm * 60 / ss := by positivity
  have hceil : (1 : ℤ) ≤ ⌈tm * 60 / ss⌉ := Int.ceil_pos.mpr hq
  have hmax : max 1 ⌈tm * 60 / ss⌉ = ⌈tm * 60 / ss⌉ := max_eq_right hceil
  have h0 : (0 : ℤ) ≤ ⌈tm * 60 / ss⌉ := le_trans zero_le_one hceil
  have hcast : ((segmentsCount tm ss : ℕ) : ℚ) = ((⌈tm * 60 / ss⌉ : ℤ) : ℚ) := by
    rw [segmentsCount, hmax]
    rw [show ((⌈tm * 60 / ss⌉.toNat : ℕ) : ℚ) = ((⌈tm * 60 / ss⌉.toNat : ℤ) : ℚ) by norm_cast]
    rw [Int.toNat_of_nonneg h0]
  rw [hcast]
  have h1 : tm * 60 / ss ≤ ((⌈tm * 60 / ss⌉ : ℤ) : ℚ) := Int.le_ceil _
  calc tm * 60 = tm * 60 / ss * ss := by field_simp
    _ ≤ ((⌈tm * 60 / ss⌉ : ℤ) : ℚ) * ss := by
        exact mul_le_mul_of_nonneg_right h1 (le_of_lt hss)
    _ = ss * ((⌈tm * 60 / ss⌉ : ℤ) : ℚ) := by ring

theorem remainder_le (tm ss : ℚ) (htm : 0 < tm) (hss : 0 < ss) :
    tm * 60 - ss * ((segmentsCount tm ss - 1 : ℕ) : ℚ) ≤ ss := by
  have hcount := segmentsCount_pos tm ss
  have hc : ((segmentsCount tm ss - 1 : ℕ) : ℚ) = ((segmentsCount tm ss : ℕ) : ℚ) - 1 := by
    push_cast [hcount]
    ring
  rw [hc]
  have htot := total_le_count_mul tm ss htm hss
  have e : ss * (((segmentsCount tm ss : ℕ) : ℚ) - 1)
      = ss * ((segmentsCount tm ss : ℕ) : ℚ) - ss := by ring
  rw [e]
  linarith

theorem build_eq_uniform (p : List Char) (tm ss fps : ℚ) (mf fs : ℤ)
    (htm : 0 < tm) (hss : 0 < ss) :
    build_segments_plan p tm ss fps mf fs =
      (List.range (segmentsCount tm ss)).map (fun idx =>
        { index := idx + 1
          prompt := (split_prompt p (segmentsCount tm ss)).getD idx []
            ++ segTag (idx + 1) (segmentsCount tm ss)
          seconds := pyRound2 ss
          frames := max mf (pyRound (ss * fps / (fs : ℚ)) * fs) }) := by
  have hdur : ∀ idx : ℕ,
      (if idx < segmentsCount tm ss - 1 then ss
       else max ss (tm * 60 - ss * ((segmentsCount tm ss - 1 : ℕ) : ℚ))) = ss := by
    intro idx
    by_cases h : idx < segmentsCount tm ss - 1
    · rw [if_pos h]
    · rw [if_neg h, max_eq_left (remainder_le tm ss htm hss)]
  simp only [build_segments_plan]
  refine List.map_congr_left ?_
  intro idx _
  rw [hdur idx]

theorem build_length (p : List Char) (tm ss fps : ℚ) (mf fs : ℤ) :
    (build_segments_plan p tm ss fps mf fs).length = segmentsCount tm ss := by
  simp [build_segments_plan]

theorem mem_getLastD {α : Type} (l : List α) (d : α) (h : l ≠ []) : l.getLastD d ∈ l := by
  induction l generalizing d with
  | nil => exact absurd rfl h
  | cons a t ih =>
    cases t with
    | nil => simp [List.getLastD]
    | cons b u =>
      have := ih a (by simp)
      simp only [List.getLastD] at this ⊢
      exact List.mem_cons_of_mem a this

theorem pyRound_intCast (k : ℤ) : pyRound (k : ℚ) = k := by
  rw [pyRound, Int.floor_intCast]
  norm_num

theorem pyRound2_div100 (j : ℤ) : pyRound2 ((j : ℚ) / 100) = (j : ℚ) / 100 := by
  rw [pyRound2]
  have e : (j : ℚ) / 100 * 100 = (j : ℚ) := by field_simp
  rw [e, pyRound_intCast]

/-- C3: for every non-empty prompt and every positive segment count,
`_split_prompt` (a total Lean function here) returns exactly `segments`
chunks. -/
theorem c3_split_prompt_length (p : List Char) (g : ℕ) (hp : p ≠ []) (hg : 0 < g) :
    (split_prompt p g).length = g := by
  simp only [split_prompt]
  by_cases h : (sentenceUnits p).isEmpty
  · simp [h]
  · simp [h, chunkWindows_length]

/-- Witness for C3 at the specification example input. -/
theorem c3_witness :
    (split_prompt ("Eerste zin. Tweede zin! Derde zin?").data 2).length = 2 :=
  c3_split_prompt_length _ 2 (by decide) (by decide)

/-- C4: when the prompt has at least one sentence unit, the chunks returned
by `_split_prompt` are exactly the space-joined windows of the unit list, and
the concatenation of those windows is the unit list itself followed by some
number of repeats of the last unit: every unit appears, in order, none
dropped or duplicated, except the trailing last-unit fallback repeats. -/
theorem c4_chunk_coverage (p : List Char) (g : ℕ) (hg : 0 < g)
    (hs : sentenceUnits p ≠ []) :
    split_prompt p g =
      (chunkWindows (sentenceUnits p)
        (max 1 (((sentenceUnits p).length + g - 1) / g)) g 0).map joinSpace ∧
    ∃ m, (chunkWindows (sentenceUnits p)
        (max 1 (((sentenceUnits p).length + g - 1) / g)) g 0).flatten =
      sentenceUnits p ++ List.replicate m ((sentenceUnits p).getLastD []) := by
  constructor
  · simp only [split_prompt]
    rw [if_neg (by simpa [List.isEmpty_iff] using hs)]
  · apply chunkWindows_flatten_eq
    · exact lt_of_lt_of_le one_pos (le_max_left _ _)
    · rw [Nat.zero_add]
      exact length_le_chunkSize_mul _ g hg

/-- Witness for C4: the specification own example, with the window flattening fully
evaluated (`m = 0` repeats of the last unit here). -/
theorem c4_witness :
    split_prompt ("Eerste zin. Tweede zin! Derde zin?").data 2 =
      [("Eerste zin. Tweede zin!").data, ("Derde zin?").data] ∧
    (chunkWindows (sentenceUnits ("Eerste zin. Tweede zin! Derde zin?").data)
        (max 1 (((sentenceUnits ("Eerste zin. Tweede zin! Derde zin?").data).length + 2 - 1) / 2))
        2 0).flatten =
      sentenceUnits ("Eerste zin. Tweede zin! Derde zin?").data ++
        List.replicate 0 ((sentenceUnits ("Eerste zin. Tweede zin! Derde zin?").data).getLastD []) := by
  have h := c4_chunk_coverage ("Eerste zin. Tweede zin! Derde zin?").data 2
    (by decide) (by decide)
  refine ⟨?_, by decide⟩
  rw [h.1]
  decide

/-- C5: the plan has exactly `max(1, ceil(total_minutes * 60 / segment_seconds))`
entries, this count is at least 1, and each entry is annotated with its 1-based
index and the total count. -/
theorem c5_segment_count (p : List Char) (tm ss fps : ℚ) (mf fs : ℤ)
    (htm : 0 < tm) (hss : 0 < ss) (hfps : 0 < fps) (hmf : 0 < mf) (hfs : 0 < fs) :
    (build_segments_plan p tm ss fps mf fs).length = (max 1 ⌈tm * 60 / ss⌉).toNat ∧
    1 ≤ (build_segments_plan p tm ss fps mf fs).length ∧
    (build_segments_plan p tm ss fps mf fs).map SegmentPlan.index =
      (List.range (segmentsCount tm ss)).map (fun i => i + 1) ∧
    (build_segments_plan p tm ss fps mf fs).map SegmentPlan.prompt =
      (List.range (segmentsCount tm ss)).map (fun i =>
        (split_prompt p (segmentsCount tm ss)).getD i []
          ++ segTag (i + 1) (segmentsCount tm ss)) := by
  refine ⟨by rw [build_length]; rfl, ?_, ?_, ?_⟩
  · rw [build_length]
    exact segmentsCount_pos tm ss
  · simp only [build_segments_plan, List.map_map]
    rfl
  · simp only [build_segments_plan, List.map_map]
    rfl

/-- Witness for C5: the end-to-end example of the spec
(`totalMinutes = 0.25`, `segmentSeconds = 7` gives `ceil(15/7) = 3` segments). -/
theorem c5_witness :
    (build_segments_plan ("Een lange prompt met twee zinnen. Nog een stukje prompt.").data
      (1/4) 7 8 8 2).length = 3 := by
  have h := (c5_segment_count ("Een lange prompt met twee zinnen. Nog een stukje prompt.").data
    (1/4) 7 8 8 2 (by norm_num) (by norm_num)
    (by norm_num) (by norm_num) (by norm_num)).1
  rw [h]
  have hc : ⌈(1:ℚ)/4 * 60 / 7⌉ = 3 := by norm_num [Int.ceil_eq_iff]
  rw [hc]
  decide

/-- C9: for all valid inputs the duration of every segment is exactly
`segment_seconds` (the remainder branch never exceeds it), so each entry has
`seconds = round(segment_seconds, 2)` and every entry carries the same
`frames` value. -/
theorem c9_uniform_plan (p : List Char) (tm ss fps : ℚ) (mf fs : ℤ)
    (htm : 0 < tm) (hss : 0 < ss) :
    ∀ s ∈ build_segments_plan p tm ss fps mf fs,
      s.seconds = pyRound2 ss ∧
      s.frames = max mf (pyRound (ss * fps / (fs : ℚ)) * fs) := by
  rw [build_eq_uniform p tm ss fps mf fs htm hss]
  intro s hs
  obtain ⟨idx, -, rfl⟩ := List.mem_map.mp hs
  exact ⟨rfl, rfl⟩

/-- Witness for C9 at the specification example parameters: all five entries carry
`seconds = 7` and `frames = 70`. -/
theorem c9_witness :
    (build_segments_plan ("Een uitgebreid verhaal dat in delen wordt verteld.").data
      (1/2) 7 10 8 2).map SegmentPlan.seconds = List.replicate 5 7 ∧
    (build_segments_plan ("Een uitgebreid verhaal dat in delen wordt verteld.").data
      (1/2) 7 10 8 2).map SegmentPlan.frames = List.replicate 5 70 := by
  have h := c9_uniform_plan ("Een uitgebreid verhaal dat in delen wordt verteld.").data
    (1/2) 7 10 8 2 (by norm_num) (by norm_num)
  have hlen : (build_segments_plan ("Een uitgebreid verhaal dat in delen wordt verteld.").data
      (1/2) 7 10 8 2).length = 5 := by
    rw [build_length]
    have hc : ⌈(1:ℚ)/2 * 60 / 7⌉ = 5 := by norm_num [Int.ceil_eq_iff]
    rw [segmentsCount, hc]
    decide
  have hsec : pyRound2 (7:ℚ) = 7 := by
    have e : (7:ℚ) = ((700:ℤ) : ℚ) / 100 := by norm_num
    rw [e, pyRound2_div100]
  have hfr : max (8:ℤ) (pyRound ((7:ℚ) * 10 / ((2:ℤ) : ℚ)) * 2) = 70 := by
    have e : (7:ℚ) * 10 / ((2:ℤ) : ℚ) = ((35:ℤ) : ℚ) := by norm_num
    rw [e, pyRound_intCast]
    decide
  constructor
  · rw [List.eq_replicate_iff]
    refine ⟨by rw [List.length_map, hlen], ?_⟩
    intro b hb
    obtain ⟨s, hs, rfl⟩ := List.mem_map.mp hb
    rw [(h s hs).1, hsec]
  · rw [List.eq_replicate_iff]
    refine ⟨by rw [List.length_map, hlen], ?_⟩
    intro b hb
    obtain ⟨s, hs, rfl⟩ := List.mem_map.mp hb
    rw [(h s hs).2, hfr]

/-- C1 (amended): every `frames` value is at least `min_frames`, and is either
a multiple of `frame_step` or exactly `min_frames` (hence a multiple of
`frame_step` whenever `min_frames` itself is one). -/
theorem c1_frames_amended (p : List Char) (tm ss fps : ℚ) (mf fs : ℤ)
    (htm : 0 < tm) (hss : 0 < ss) (hfps : 0 < fps) (hmf : 0 < mf) (hfs : 0 < fs) :
    ∀ s ∈ build_segments_plan p tm ss fps mf fs,
      mf ≤ s.frames ∧ (fs ∣ s.frames ∨ s.frames = mf) := by
  rw [build_eq_uniform p tm ss fps mf fs htm hss]
  intro s hs
  obtain ⟨idx, -, rfl⟩ := List.mem_map.mp hs
  refine ⟨le_max_left _ _, ?_⟩
  rcases le_total mf (pyRound (ss * fps / (fs : ℚ)) * fs) with h | h
  · exact Or.inl (by rw [max_eq_right h]; exact dvd_mul_left fs _)
  · exact Or.inr (max_eq_left h)

theorem segCount_quarter : segmentsCount (1/4) 7 = 3 := by
  have hc : ⌈(1:ℚ)/4 * 60 / 7⌉ = 3 := by norm_num [Int.ceil_eq_iff]
  rw [segmentsCount, hc]
  decide

theorem frames_quarter_map :
    (build_segments_plan ("Hallo.").data (1/4) 7 8 8 2).map SegmentPlan.frames
      = [56, 56, 56] := by
  have hu := build_eq_uniform ("Hallo.").data (1/4) 7 8 8 2 (by norm_num) (by norm_num)
  rw [segCount_quarter] at hu
  have hfr : pyRound ((7:ℚ) * 8 / ((2:ℤ) : ℚ)) = 28 := by
    have e : (7:ℚ) * 8 / ((2:ℤ) : ℚ) = ((28:ℤ) : ℚ) := by norm_num
    rw [e, pyRound_intCast]
  rw [hu, List.map_map, hfr]
  decide

/-- Witness for the amended statement of C1 at the specification example parameters:
every frame count is 56, which is at least 8 and a multiple of 2. -/
theorem c1_witness :
    (build_segments_plan ("Hallo.").data (1/4) 7 8 8 2).map SegmentPlan.frames
      = [56, 56, 56] ∧ (8:ℤ) ≤ 56 ∧ ((2:ℤ) ∣ 56 ∨ (56:ℤ) = 8) := by
  have h := c1_frames_amended ("Hallo.").data (1/4) 7 8 8 2 (by norm_num) (by norm_num)
    (by norm_num) (by norm_num) (by norm_num)
  have hmem : (56:ℤ) ∈ (build_segments_plan ("Hallo.").data (1/4) 7 8 8 2).map
      SegmentPlan.frames := by
    rw [frames_quarter_map]
    decide
  obtain ⟨s, hs, hs56⟩ := List.mem_map.mp hmem
  obtain ⟨hle, hdvd⟩ := h s hs
  rw [hs56] at hle hdvd
  exact ⟨frames_quarter_map, hle, hdvd⟩

theorem segCount_ex1 : segmentsCount (1/10) 7 = 1 := by
  have hc : ⌈(1:ℚ)/10 * 60 / 7⌉ = 1 := by norm_num [Int.ceil_eq_iff]
  rw [segmentsCount, hc]
  decide

/-- C1 counterexample: with `min_frames = 7`, `frame_step = 4`, `fps = 1/8`,
the single segment gets `frames = 7`, which is not a multiple of 4. -/
theorem c1_counterexample :
    ¬ (∀ s ∈ build_segments_plan ("Hallo.").data (1/10) 7 (1/8) 7 4,
        (4:ℤ) ∣ s.frames ∧ (7:ℤ) ≤ s.frames) := by
  intro hall
  have hu := build_eq_uniform ("Hallo.").data (1/10) 7 (1/8) 7 4 (by norm_num) (by norm_num)
  rw [segCount_ex1] at hu
  have hfr : pyRound ((7:ℚ) * (1/8) / ((4:ℤ) : ℚ)) = 0 := by
    have h1 : (7:ℚ) * (1/8) / ((4:ℤ) : ℚ) = 7/32 := by norm_num
    have h2 : ⌊(7:ℚ)/32⌋ = 0 := by norm_num [Int.floor_eq_iff]
    rw [pyRound, h1, h2]
    norm_num
  have hmap : (build_segments_plan ("Hallo.").data (1/10) 7 (1/8) 7 4).map SegmentPlan.frames
      = [7] := by
    rw [hu]
    rw [List.map_map]
    rw [hfr]
    decide
  have h7 : (7:ℤ) ∈ (build_segments_plan ("Hallo.").data (1/10) 7 (1/8) 7 4).map
      SegmentPlan.frames := by
    rw [hmap]
    simp
  obtain ⟨s, hsmem, hs7⟩ := List.mem_map.mp h7
  obtain ⟨hdvd, -⟩ := hall s hsmem
  rw [hs7] at hdvd
  omega

/-- C2 (amended): for every segment the code computes
`frames = max(min_frames, round(duration * fps / frame_step) * frame_step)`:
the raw frame count is divided by `frame_step` first, the quotient is rounded
to the nearest integer (ties to even), and the result multiplied back — there
is no truncating integer-division step after rounding; with valid inputs every
duration equals `segment_seconds`. -/
theorem c2_frames_formula (p : List Char) (tm ss fps : ℚ) (mf fs : ℤ)
    (htm : 0 < tm) (hss : 0 < ss) :
    ∀ s ∈ build_segments_plan p tm ss fps mf fs,
      s.frames = max mf (pyRound (ss * fps / (fs : ℚ)) * fs) := by
  rw [build_eq_uniform p tm ss fps mf fs htm hss]
  intro s hs
  obtain ⟨idx, -, rfl⟩ := List.mem_map.mp hs
  rfl

/-- Witness for the amended statement of C2: a concrete frame count that equals
the divide-first-then-round formula, both evaluating to 56. -/
theorem c2_witness :
    (56:ℤ) ∈ (build_segments_plan ("Hallo.").data (1/4) 7 8 8 2).map SegmentPlan.frames ∧
    max (8:ℤ) (pyRound ((7:ℚ) * 8 / ((2:ℤ) : ℚ)) * 2) = 56 := by
  have h := c2_frames_formula ("Hallo.").data (1/4) 7 8 8 2 (by norm_num) (by norm_num)
  have hmem : (56:ℤ) ∈ (build_segments_plan ("Hallo.").data (1/4) 7 8 8 2).map
      SegmentPlan.frames := by
    rw [frames_quarter_map]
    decide
  obtain ⟨s, hs, hs56⟩ := List.mem_map.mp hmem
  have he := h s hs
  rw [hs56] at he
  exact ⟨hmem, he.symm⟩

/-- C2 counterexample: at `duration = 4`, `fps = 3/4`, `frame_step = 2`,
`min_frames = 1` the code yields `round(3/2)*2 = 4`, while the
round-then-truncate formula of the claim yields `(round(3)//2)*2 = 2`. -/
theorem c2_counterexample :
    (build_segments_plan ("Hallo.").data (1/20) 4 (3/4) 1 2).map SegmentPlan.frames = [4] ∧
    framesClaimC2 4 (3/4) 1 2 = 2 ∧ (4:ℤ) ≠ 2 := by
  refine ⟨?_, ?_, by decide⟩
  · have hcount : segmentsCount (1/20) 4 = 1 := by
      have hc : ⌈(1:ℚ)/20 * 60 / 4⌉ = 1 := by norm_num [Int.ceil_eq_iff]
      rw [segmentsCount, hc]
      decide
    have hu := build_eq_uniform ("Hallo.").data (1/20) 4 (3/4) 1 2 (by norm_num) (by norm_num)
    rw [hcount] at hu
    have hfr : pyRound ((4:ℚ) * (3/4) / ((2:ℤ) : ℚ)) = 2 := by
      have h1 : (4:ℚ) * (3/4) / ((2:ℤ) : ℚ) = 3/2 := by norm_num
      have h2 : ⌊(3:ℚ)/2⌋ = 1 := by norm_num [Int.floor_eq_iff]
      rw [pyRound, h1, h2]
      norm_num
    rw [hu, List.map_map, hfr]
    decide
  · have h1 : (4:ℚ) * (3/4) = ((3:ℤ) : ℚ) := by norm_num
    rw [framesClaimC2, h1, pyRound_intCast]
    decide

/-- C7 (amended): every emitted prompt is exactly the chunk of the segment followed
by the verbatim Dutch continuity tail of the code,
`" (Segment <i+1>/<segmentCount>. Houd stijl, personages en camera gelijkmatig)."`,
appended identically to every chunk. -/
theorem c7_prompt_tag (p : List Char) (tm ss fps : ℚ) (mf fs : ℤ)
    (htm : 0 < tm) (hss : 0 < ss) :
    (build_segments_plan p tm ss fps mf fs).map SegmentPlan.prompt =
      (List.range (segmentsCount tm ss)).map (fun i =>
        (split_prompt p (segmentsCount tm ss)).getD i []
          ++ segTag (i + 1) (segmentsCount tm ss)) := by
  simp only [build_segments_plan, List.map_map]
  rfl

/-- Witness for the amended statement of C7. -/
theorem c7_witness :
    (build_segments_plan ("Hallo.").data (1/10) 7 1 1 1).map SegmentPlan.prompt =
      (List.range (segmentsCount (1/10) 7)).map (fun i =>
        (split_prompt ("Hallo.").data (segmentsCount (1/10) 7)).getD i []
          ++ segTag (i + 1) (segmentsCount (1/10) 7)) :=
  c7_prompt_tag _ (1/10) 7 1 1 1 (by norm_num) (by norm_num)

/-- C7 counterexample: the emitted prompt carries the Dutch tail `segTag`,
not the English tail `segTagClaim7` that the claim quotes verbatim. -/
theorem c7_counterexample :
    (build_segments_plan ("Hallo.").data (1/10) 7 1 1 1).map SegmentPlan.prompt =
      [("Hallo.").data ++ segTag 1 1] ∧
    ("Hallo.").data ++ segTag 1 1 ≠ ("Hallo.").data ++ segTagClaim7 1 1 := by
  refine ⟨?_, by decide⟩
  have hu := build_eq_uniform ("Hallo.").data (1/10) 7 1 1 1 (by norm_num) (by norm_num)
  rw [segCount_ex1] at hu
  rw [hu, List.map_map]
  decide

/-- C6 counterexample: with `segment_seconds = 7.004` the stored `seconds` is
`round(7.004, 2) = 7.0`, strictly below `segment_seconds`, so the last entry fails
`seconds` at least `segmentSeconds` and the non-last entries each have `seconds` that do not
equal `segmentSeconds`. -/
theorem c6_counterexample :
    (build_segments_plan ("Hallo.").data (1/10) (7004/1000) 1 1 1).map SegmentPlan.seconds
      = [7] ∧
    (7:ℚ) < 7004/1000 := by
  refine ⟨?_, by norm_num⟩
  have hcount : segmentsCount (1/10) (7004/1000) = 1 := by
    have hc : ⌈(1:ℚ)/10 * 60 / (7004/1000)⌉ = 1 := by norm_num [Int.ceil_eq_iff]
    rw [segmentsCount, hc]
    decide
  have hu := build_eq_uniform ("Hallo.").data (1/10) (7004/1000) 1 1 1
    (by norm_num) (by norm_num)
  rw [hcount] at hu
  have hr : pyRound2 ((7004:ℚ)/1000) = 7 := by
    rw [pyRound2]
    have e : (7004:ℚ)/1000 * 100 = 7004/10 := by norm_num
    have hf : ⌊(7004:ℚ)/10⌋ = 700 := by norm_num [Int.floor_eq_iff]
    rw [e, pyRound, hf]
    norm_num
  rw [hu, List.map_map, hr]
  decide

/-- C6 (amended): when `segment_seconds` is an exact multiple of `0.01` (so
that the 2-decimal rounding of each stored `seconds` is lossless), the last
entry has `seconds` at least `segment_seconds`, every entry before the last has
`seconds = segment_seconds` — their sum is `segment_seconds * (count - 1)` —
and the `seconds` of all entries sum to at least `total_minutes * 60`. -/
theorem c6_seconds_amended (p : List Char) (tm ss fps : ℚ) (mf fs : ℤ) (j : ℤ)
    (htm : 0 < tm) (hss : 0 < ss) (hj : ss = (j : ℚ) / 100) :
    ss ≤ ((build_segments_plan p tm ss fps mf fs).getLastD ⟨0, [], 0, 0⟩).seconds ∧
    (∀ s ∈ (build_segments_plan p tm ss fps mf fs).dropLast, s.seconds = ss) ∧
    ((build_segments_plan p tm ss fps mf fs).dropLast.map SegmentPlan.seconds).sum
      = ss * (((build_segments_plan p tm ss fps mf fs).length - 1 : ℕ) : ℚ) ∧
    tm * 60 ≤ ((build_segments_plan p tm ss fps mf fs).map SegmentPlan.seconds).sum := by
  have hsec : ∀ s ∈ build_segments_plan p tm ss fps mf fs, s.seconds = ss := by
    rw [build_eq_uniform p tm ss fps mf fs htm hss]
    intro s hs
    obtain ⟨idx, -, rfl⟩ := List.mem_map.mp hs
    show pyRound2 ss = ss
    rw [hj, pyRound2_div100]
  have hlen : (build_segments_plan p tm ss fps mf fs).length = segmentsCount tm ss :=
    build_length p tm ss fps mf fs
  have hne : build_segments_plan p tm ss fps mf fs ≠ [] := by
    have h1 : 0 < (build_segments_plan p tm ss fps mf fs).length := by
      rw [hlen]
      exact lt_of_lt_of_le one_pos (segmentsCount_pos tm ss)
    exact List.ne_nil_of_length_pos h1
  refine ⟨?_, ?_, ?_, ?_⟩
  · rw [hsec _ (mem_getLastD _ _ hne)]
  · intro s hs
    exact hsec s (List.dropLast_subset _ hs)
  · have hrep : (build_segments_plan p tm ss fps mf fs).dropLast.map SegmentPlan.seconds
        = List.replicate ((build_segments_plan p tm ss fps mf fs).length - 1) ss := by
      rw [List.eq_replicate_iff]
      constructor
      · rw [List.length_map, List.length_dropLast]
      · intro b hb
        obtain ⟨s, hs, rfl⟩ := List.mem_map.mp hb
        exact hsec s (List.dropLast_subset _ hs)
    rw [hrep, List.sum_replicate, nsmul_eq_mul]
    ring
  · have hrep : (build_segments_plan p tm ss fps mf fs).map SegmentPlan.seconds
        = List.replicate ((build_segments_plan p tm ss fps mf fs).length) ss := by
      rw [List.eq_replicate_iff]
      constructor
      · rw [List.length_map]
      · intro b hb
        obtain ⟨s, hs, rfl⟩ := List.mem_map.mp hb
        exact hsec s hs
    rw [hrep, List.sum_replicate, nsmul_eq_mul, hlen]
    calc tm * 60 ≤ ss * ((segmentsCount tm ss : ℕ) : ℚ) := total_le_count_mul tm ss htm hss
      _ = ((segmentsCount tm ss : ℕ) : ℚ) * ss := by ring

/-- Witness for the amended statement of C6 (`segment_seconds = 7 = 700/100`). -/
theorem c6_witness :
    (7:ℚ) ≤ ((build_segments_plan ("Hallo.").data (1/10) 7 1 1 1).getLastD
      ⟨0, [], 0, 0⟩).seconds ∧
    ((build_segments_plan ("Hallo.").data (1/10) 7 1 1 1).dropLast.map
      SegmentPlan.seconds).sum
      = 7 * (((build_segments_plan ("Hallo.").data (1/10) 7 1 1 1).length - 1 : ℕ) : ℚ) ∧
    (1:ℚ)/10 * 60 ≤ ((build_segments_plan ("Hallo.").data (1/10) 7 1 1 1).map
      SegmentPlan.seconds).sum := by
  obtain ⟨h1, -, h3, h4⟩ := c6_seconds_amended ("Hallo.").data (1/10) 7 1 1 1 700
    (by norm_num) (by norm_num) (by norm_num)
  exact ⟨h1, h3, h4⟩


/-- C8: each of the three user-input validation failures (blank prompt,
non-positive total duration, non-positive segment length) yields its own
distinct warning message and aborts with no job submitted and the generation
info unchanged. -/
theorem c8_validation {σ κ ρ : Type} (env : HostEnv σ κ ρ) (prompt : List Char)
    (tm ss : ℚ) :
    (pyStrip prompt = [] →
      create_segments env prompt tm ss =
        { warning := some ("Prompt mag niet leeg zijn.").data, jobs := [], gen := env.gen }) ∧
    (pyStrip prompt ≠ [] → tm ≤ 0 →
      create_segments env prompt tm ss =
        { warning := some ("Totale duur moet groter dan nul zijn.").data, jobs := [],
          gen := env.gen }) ∧
    (pyStrip prompt ≠ [] → 0 < tm → ss ≤ 0 →
      create_segments env prompt tm ss =
        { warning := some ("Segmentlengte moet groter dan nul zijn.").data, jobs := [],
          gen := env.gen }) ∧
    ("Prompt mag niet leeg zijn.").data ≠ ("Totale duur moet groter dan nul zijn.").data ∧
    ("Prompt mag niet leeg zijn.").data ≠ ("Segmentlengte moet groter dan nul zijn.").data ∧
    ("Totale duur moet groter dan nul zijn.").data
      ≠ ("Segmentlengte moet groter dan nul zijn.").data := by
  refine ⟨?_, ?_, ?_, by decide, by decide, by decide⟩
  · intro h
    simp [create_segments, validate_inputs, abortWith, h]
  · intro h1 h2
    have hp : prompt ≠ [] := by
      intro e
      exact h1 (by rw [e]; rfl)
    simp [create_segments, validate_inputs, abortWith, h1, hp, h2]
  · intro h1 h2 h3
    have hp : prompt ≠ [] := by
      intro e
      exact h1 (by rw [e]; rfl)
    simp [create_segments, validate_inputs, abortWith, h1, hp, h3, not_le.mpr h2]

/-- Witness for C8: a blank prompt aborts with the first message. -/
theorem c8_witness :
    create_segments envU ("   ").data (1:ℚ) 7 =
      { warning := some ("Prompt mag niet leeg zijn.").data, jobs := [], gen := envU.gen } :=
  (c8_validation envU (("   ").data) 1 7).1 (by decide)


theorem validate_inputs_none_iff (prompt : List Char) (tm ss : ℚ) :
    validate_inputs prompt tm ss = none ↔ pyStrip prompt ≠ [] ∧ 0 < tm ∧ 0 < ss := by
  have hstrip : (prompt.isEmpty || (pyStrip prompt).isEmpty) = true ↔ pyStrip prompt = [] := by
    constructor
    · intro h
      have h2 : prompt.isEmpty = true ∨ (pyStrip prompt).isEmpty = true := by
        simpa using h
      rcases h2 with h | h
      · rw [List.isEmpty_iff] at h
        rw [h]
        rfl
      · exact List.isEmpty_iff.mp h
    · intro h
      have h2 : (pyStrip prompt).isEmpty = true := List.isEmpty_iff.mpr h
      simp [h2]
  unfold validate_inputs
  by_cases h1 : pyStrip prompt = []
  · rw [if_pos (hstrip.mpr h1)]
    simp [h1]
  · rw [if_neg (fun hc => h1 (hstrip.mp hc))]
    by_cases h2 : tm ≤ 0
    · rw [if_pos h2]
      simp [h1, not_lt.mpr h2]
    · rw [if_neg h2]
      by_cases h3 : ss ≤ 0
      · rw [if_pos h3]
        simp [h1, not_lt.mpr h3]
      · rw [if_neg h3]
        simp [h1, not_le.mp h2, not_le.mp h3]

theorem create_segments_success {σ κ ρ : Type} (env : HostEnv σ κ ρ) (prompt : List Char)
    (tm ss : ℚ) (s : σ)
    (hval : validate_inputs prompt tm ss = none)
    (hset : env.settings = some s)
    (hbase : env.base_model_type_ok = true)
    (hnum : env.fps_is_number = true)
    (hfps : 0 < env.fps)
    (hmf : 0 < env.min_frames)
    (hfs : 0 < env.frame_step) :
    create_segments env prompt tm ss =
      { warning := none
        jobs := (build_segments_plan prompt tm ss env.fps env.min_frames env.frame_step).map
          (fun seg =>
            { base := s
              prompt := seg.prompt
              video_length := seg.frames
              segment := seg.index
              total_segments :=
                (build_segments_plan prompt tm ss env.fps env.min_frames env.frame_step).length
              segment_seconds := seg.seconds
              fps := env.fps })
        gen :=
          { prompts_max := some (env.gen.prompts_max.getD 0 +
              ((build_segments_plan prompt tm ss env.fps env.min_frames
                env.frame_step).length : ℤ))
            queue := some (env.gen.queue.getD [])
            rest := env.gen.rest } } := by
  unfold create_segments
  simp only [hval, hset]
  rw [if_neg (by simp [hbase])]
  rw [if_neg (by simp [hnum, not_le.mpr hfps])]
  rw [if_neg (by simp [not_le.mpr hmf, not_le.mpr hfs])]

/-- C10 (amended): on a successful invocation exactly one job per plan entry
is submitted, in plan order, carrying the annotated prompt of the entry and frame
count; `prompts_max` becomes its previous value (default 0) plus the segment
count; a missing `queue` key is initialized to the empty list by
`setdefault`; every other key is unchanged. -/
theorem c10_submission (σ κ ρ : Type) (env : HostEnv σ κ ρ) (prompt : List Char)
    (tm ss : ℚ) (s : σ)
    (hval : validate_inputs prompt tm ss = none)
    (hset : env.settings = some s)
    (hbase : env.base_model_type_ok = true)
    (hnum : env.fps_is_number = true)
    (hfps : 0 < env.fps)
    (hmf : 0 < env.min_frames)
    (hfs : 0 < env.frame_step) :
    (create_segments env prompt tm ss).jobs =
      (build_segments_plan prompt tm ss env.fps env.min_frames env.frame_step).map
        (fun seg =>
          { base := s
            prompt := seg.prompt
            video_length := seg.frames
            segment := seg.index
            total_segments :=
              (build_segments_plan prompt tm ss env.fps env.min_frames env.frame_step).length
            segment_seconds := seg.seconds
            fps := env.fps }) ∧
    (create_segments env prompt tm ss).gen.prompts_max =
      some (env.gen.prompts_max.getD 0 +
        ((build_segments_plan prompt tm ss env.fps env.min_frames env.frame_step).length : ℤ)) ∧
    (create_segments env prompt tm ss).gen.queue = some (env.gen.queue.getD []) ∧
    (create_segments env prompt tm ss).gen.rest = env.gen.rest ∧
    (create_segments env prompt tm ss).warning = none := by
  rw [create_segments_success env prompt tm ss s hval hset hbase hnum hfps hmf hfs]
  exact ⟨rfl, rfl, rfl, rfl, rfl⟩

/-- Witness for the amended statement of C10 at concrete inputs. -/
theorem c10_witness :
    (create_segments envU ("Hallo.").data (1/4) 7).jobs =
      (build_segments_plan ("Hallo.").data (1/4) 7 envU.fps envU.min_frames envU.frame_step).map
        (fun seg =>
          { base := ()
            prompt := seg.prompt
            video_length := seg.frames
            segment := seg.index
            total_segments :=
              (build_segments_plan ("Hallo.").data (1/4) 7 envU.fps envU.min_frames
                envU.frame_step).length
            segment_seconds := seg.seconds
            fps := envU.fps }) ∧
    (create_segments envU ("Hallo.").data (1/4) 7).gen.prompts_max =
      some (envU.gen.prompts_max.getD 0 +
        ((build_segments_plan ("Hallo.").data (1/4) 7 envU.fps envU.min_frames
          envU.frame_step).length : ℤ)) ∧
    (create_segments envU ("Hallo.").data (1/4) 7).gen.queue =
      some (envU.gen.queue.getD []) ∧
    (create_segments envU ("Hallo.").data (1/4) 7).gen.rest = envU.gen.rest ∧
    (create_segments envU ("Hallo.").data (1/4) 7).warning = none :=
  c10_submission Unit Unit Unit envU (("Hallo.").data) (1/4) 7 ()
    ((validate_inputs_none_iff _ _ _).mpr ⟨by decide, by norm_num, by norm_num⟩)
    rfl rfl rfl (by norm_num [envU]) (by decide) (by decide)

/-- C10 counterexample: when the generation info has no `queue` key, a
successful invocation still modifies that key (`setdefault` writes an empty
list), so `prompts_max` is not the only key of the generation info the plugin
modifies. -/
theorem c10_counterexample :
    (create_segments envNoQueue ("Hallo.").data (1/10) 7).warning = none ∧
    envNoQueue.gen.queue = none ∧
    (create_segments envNoQueue ("Hallo.").data (1/10) 7).gen.queue = some [] ∧
    (create_segments envNoQueue ("Hallo.").data (1/10) 7).gen.queue
      ≠ envNoQueue.gen.queue := by
  have h := create_segments_success envNoQueue (("Hallo.").data) (1/10) 7 ()
    ((validate_inputs_none_iff _ _ _).mpr ⟨by decide, by norm_num, by norm_num⟩)
    rfl rfl rfl (by norm_num [envNoQueue]) (by decide) (by decide)
  rw [h]
  exact ⟨rfl, rfl, rfl, by decide⟩
